import Mathlib

/-!
Verification of `JobScraper.py`, a one-shot Indeed job scraper.

Modelling conventions:
* Python strings handed to `requests.utils.quote` are modelled by their UTF-8
  byte sequences (`List Nat`, each element `< 256`); `quote` percent-encodes
  those bytes.
* URLs are modelled as `List Char` (the ASCII text produced by the builder).
* The HTTP layer is modelled as a function from the request URL to a
  `Response`; the HTML body is abstracted to its parse result: the list of
  job-card elements in document order, each card recording what the eight
  CSS `select_one` calls of the loop body would return.
* Exceptions are modelled with `Except`: `Except.error s` is the
  `requests.exceptions.HTTPError` raised by `raise_for_status` for HTTP
  status `s`.
-/

set_option maxRecDepth 8000
set_option maxHeartbeats 1000000

/-- Value of `BASE_URL` at JobScraper.py line 35. -/
def BASE_URL : String := "https://www.indeed.com/jobs"

/-- Bytes left unescaped by Python `urllib.parse.quote` (the `_ALWAYS_SAFE`
set: ASCII letters, digits, and `_.-~`). -/
def isUnreservedByte (b : Nat) : Bool :=
  (65 ≤ b && b ≤ 90) || (97 ≤ b && b ≤ 122) || (48 ≤ b && b ≤ 57) ||
    b == 45 || b == 46 || b == 95 || b == 126

/-- Uppercase hexadecimal digit character, as used by `quote`'s `%XX` escapes. -/
def hexDigit (n : Nat) : Char :=
  if n < 10 then Char.ofNat (48 + n) else Char.ofNat (55 + n)

/-- Encoding of one byte by `requests.utils.quote` with the default
`safe='/'`: unreserved bytes and `/` (47) pass through, every other byte
becomes `%XX` with uppercase hex digits. -/
def quoteByte (b : Nat) : List Char :=
  if isUnreservedByte b || b == 47 then [Char.ofNat b]
  else ['%', hexDigit (b / 16), hexDigit (b % 16)]

/-- Model of `requests.utils.quote` applied to the UTF-8 bytes of a string. -/
def quoteList : List Nat → List Char
  | [] => []
  | b :: bs => quoteByte b ++ quoteList bs

/-- UTF-8 bytes of Python `str(v)` for an integer `v` (decimal digits and an
optional leading minus sign, all ASCII). -/
def intBytes (i : Int) : List Nat := (toString i).toList.map Char.toNat

/-- Model of `_build_search_url` (JobScraper.py lines 38-48): the base URL,
`?`, then `k=quote(str(v))` pairs for `q`, `l`, `start`, joined by `&`. -/
def _build_search_url (query location : List Nat) (start : Int) : List Char :=
  BASE_URL.toList ++ '?' ::
    ("q=".toList ++ quoteList query ++ '&' ::
      ("l=".toList ++ quoteList location ++ '&' ::
        ("start=".toList ++ quoteList (intBytes start))))

/-- Numeric value of an uppercase hexadecimal digit character. -/
def hexVal (c : Char) : Nat :=
  if 65 ≤ c.toNat then c.toNat - 55 else c.toNat - 48

/-- Standard percent-decoding of URL text back to bytes: `%XX` becomes the
byte `XX`, any other character stands for its own code point. -/
def percentDecode : List Char → List Nat
  | [] => []
  | c :: rest =>
    if c = '%' then
      match rest with
      | h1 :: h2 :: rest2 => (16 * hexVal h1 + hexVal h2) :: percentDecode rest2
      | [h1] => c.toNat :: [h1.toNat]
      | [] => [c.toNat]
    else c.toNat :: percentDecode rest

/-- Query-string part of a URL: everything after the first `?`. -/
def dropToQuery : List Char → List Char
  | [] => []
  | c :: rest => if c = '?' then rest else dropToQuery rest

/-- Segments of a query string split at every `&`. -/
def splitAmp : List Char → List (List Char)
  | [] => [[]]
  | c :: rest =>
    if c = '&' then [] :: splitAmp rest
    else (c :: (splitAmp rest).headD []) :: (splitAmp rest).tail

/-- Key/value split of one query-string segment at its first `=`. -/
def splitEq : List Char → List Char × List Char
  | [] => ([], [])
  | c :: rest =>
    if c = '=' then ([], rest)
    else ((c :: (splitEq rest).1), (splitEq rest).2)

/-- First value bound to `name` among the query-string segments. -/
def lookupParam (name : List Char) : List (List Char) → Option (List Char)
  | [] => none
  | seg :: rest =>
    if (splitEq seg).1 = name then some (splitEq seg).2 else lookupParam name rest

/-- Raw (still percent-encoded) value of query parameter `name` in a URL. -/
def getParam (name : List Char) (url : List Char) : Option (List Char) :=
  lookupParam name (splitAmp (dropToQuery url))

lemma char_ofNat_toNat : ∀ b : Nat, b < 256 → (Char.ofNat b).toNat = b := by decide

lemma quoteByte_chars : ∀ b : Nat, b < 256 → ∀ c ∈ quoteByte b, c ≠ '&' ∧ c ≠ '?' := by
  decide

lemma quote_safe_branch :
    ∀ b : Nat, b < 256 → (isUnreservedByte b || b == 47) = true →
      Char.ofNat b ≠ '%' := by decide

lemma hexVal_hexDigit : ∀ x : Nat, x < 16 → hexVal (hexDigit x) = x := by decide

lemma quoteList_chars (bs : List Nat) (h : ∀ b ∈ bs, b < 256) :
    ∀ c ∈ quoteList bs, c ≠ '&' ∧ c ≠ '?' := by
  induction bs with
  | nil => intro c hc; cases hc
  | cons b bs ih =>
    intro c hc
    rcases List.mem_append.mp hc with h1 | h2
    · exact quoteByte_chars b (h b (List.mem_cons_self b bs)) c h1
    · exact ih (fun x hx => h x (List.mem_cons_of_mem b hx)) c h2

lemma percentDecode_cons_ne (c : Char) (rest : List Char) (h : c ≠ '%') :
    percentDecode (c :: rest) = c.toNat :: percentDecode rest := by
  rw [percentDecode.eq_def]
  simp only [if_neg h]

lemma percentDecode_pct (h1 h2 : Char) (rest : List Char) :
    percentDecode ('%' :: h1 :: h2 :: rest)
      = (16 * hexVal h1 + hexVal h2) :: percentDecode rest := by
  rw [percentDecode.eq_def]
  rfl

lemma percentDecode_quoteByte (b : Nat) (hb : b < 256) (rest : List Char) :
    percentDecode (quoteByte b ++ rest) = b :: percentDecode rest := by
  unfold quoteByte
  by_cases h : (isUnreservedByte b || b == 47) = true
  · rw [if_pos h]
    show percentDecode (Char.ofNat b :: rest) = b :: percentDecode rest
    rw [percentDecode_cons_ne _ _ (quote_safe_branch b hb h), char_ofNat_toNat b hb]
  · rw [if_neg h]
    show percentDecode ('%' :: hexDigit (b / 16) :: hexDigit (b % 16) :: rest)
        = b :: percentDecode rest
    rw [percentDecode_pct]
    have h16 : b / 16 < 16 := Nat.div_lt_of_lt_mul (by omega)
    rw [hexVal_hexDigit (b / 16) h16,
      hexVal_hexDigit (b % 16) (Nat.mod_lt b (by omega))]
    rw [Nat.div_add_mod b 16]

lemma percentDecode_quoteList (bs : List Nat) (h : ∀ b ∈ bs, b < 256) :
    ∀ rest, percentDecode (quoteList bs ++ rest) = bs ++ percentDecode rest := by
  induction bs with
  | nil => intro rest; rfl
  | cons b bs ih =>
    intro rest
    show percentDecode ((quoteByte b ++ quoteList bs) ++ rest) = _
    rw [List.append_assoc,
      percentDecode_quoteByte b (h b (List.mem_cons_self b bs)),
      ih (fun x hx => h x (List.mem_cons_of_mem b hx))]
    rfl

lemma dropToQuery_append (xs : List Char) (rest : List Char) (h : '?' ∉ xs) :
    dropToQuery (xs ++ '?' :: rest) = rest := by
  induction xs with
  | nil => simp [dropToQuery]
  | cons x xs ih =>
    have hx : x ≠ '?' := fun hc => h (hc ▸ List.mem_cons_self x xs)
    show dropToQuery (x :: (xs ++ '?' :: rest)) = rest
    unfold dropToQuery
    rw [if_neg hx]
    exact ih (fun hc => h (List.mem_cons_of_mem x hc))

lemma splitAmp_cons_amp (rest : List Char) :
    splitAmp ('&' :: rest) = [] :: splitAmp rest := by
  conv_lhs => rw [splitAmp]
  rw [if_pos rfl]

lemma splitAmp_cons_ne (x : Char) (rest : List Char) (hx : x ≠ '&') :
    splitAmp (x :: rest) = (x :: (splitAmp rest).headD []) :: (splitAmp rest).tail := by
  conv_lhs => rw [splitAmp]
  rw [if_neg hx]

lemma splitAmp_append (a rest : List Char) (h : '&' ∉ a) :
    splitAmp (a ++ '&' :: rest) = a :: splitAmp rest := by
  induction a with
  | nil => simp [splitAmp_cons_amp]
  | cons x a ih =>
    have hx : x ≠ '&' := fun hc => h (hc ▸ List.mem_cons_self x a)
    show splitAmp (x :: (a ++ '&' :: rest)) = _
    rw [splitAmp_cons_ne x _ hx, ih (fun hc => h (List.mem_cons_of_mem x hc))]
    rfl

lemma lookupParam_q (Q : List Char) (segs : List (List Char)) :
    lookupParam ['q'] (("q=".toList ++ Q) :: segs) = some Q := rfl

lemma lookupParam_l (Q L : List Char) (segs : List (List Char)) :
    lookupParam ['l'] (("q=".toList ++ Q) :: ("l=".toList ++ L) :: segs) = some L := rfl

/-- C4: for every query and location byte string (covering spaces, `&`, `=`,
and the UTF-8 bytes of non-ASCII characters), the `q` and `l` parameters of
the URL built by `_build_search_url` percent-decode back to exactly the
original strings. -/
theorem build_search_url_roundtrip (query location : List Nat) (start : Int)
    (hq : ∀ b ∈ query, b < 256) (hl : ∀ b ∈ location, b < 256) :
    (getParam ['q'] (_build_search_url query location start)).map percentDecode
        = some query ∧
    (getParam ['l'] (_build_search_url query location start)).map percentDecode
        = some location := by
  have hq' : '&' ∉ "q=".toList ++ quoteList query := by
    intro hc
    rcases List.mem_append.mp hc with h1 | h2
    · revert h1; decide
    · exact (quoteList_chars query hq '&' h2).1 rfl
  have hl' : '&' ∉ "l=".toList ++ quoteList location := by
    intro hc
    rcases List.mem_append.mp hc with h1 | h2
    · revert h1; decide
    · exact (quoteList_chars location hl '&' h2).1 rfl
  unfold getParam _build_search_url
  rw [dropToQuery_append _ _ (by decide)]
  rw [splitAmp_append _ _ hq', splitAmp_append _ _ hl']
  constructor
  · rw [lookupParam_q]
    have h := percentDecode_quoteList query hq []
    rw [List.append_nil] at h
    simp [Option.map, h]
    rfl
  · rw [lookupParam_l]
    have h := percentDecode_quoteList location hl []
    rw [List.append_nil] at h
    simp [Option.map, h]
    rfl

/-- Witness for C4 at `query` = UTF-8 bytes of `"p &=é"` and `location` =
bytes of `"café"`. -/
theorem build_search_url_roundtrip_witness :
    (getParam ['q'] (_build_search_url [112, 32, 38, 61, 195, 169]
        [99, 97, 102, 195, 169] 0)).map percentDecode
      = some [112, 32, 38, 61, 195, 169] ∧
    (getParam ['l'] (_build_search_url [112, 32, 38, 61, 195, 169]
        [99, 97, 102, 195, 169] 0)).map percentDecode
      = some [99, 97, 102, 195, 169] :=
  build_search_url_roundtrip [112, 32, 38, 61, 195, 169]
    [99, 97, 102, 195, 169] 0 (by decide) (by decide)

/-- HTML element as seen through BeautifulSoup: its attribute map and its
(recursive) text content. -/
structure Elem where
  attrs : List (String × String)
  text : String
deriving DecidableEq

/-- Model of BeautifulSoup `Tag.get(name)`: the attribute value, or `None`
when the attribute is absent. -/
def Elem.getAttr (e : Elem) (name : String) : Option String :=
  e.attrs.lookup name

/-- Job card of the result page, abstracted to the outcomes of the eight
`select_one` calls in the loop body (JobScraper.py lines 79-100); each field
holds the first matching element, or `none` when the selector has no match. -/
structure Card where
  titleA : Option Elem
  titleB : Option Elem
  companyA : Option Elem
  companyB : Option Elem
  locA : Option Elem
  locB : Option Elem
  summaryA : Option Elem
  summaryB : Option Elem
deriving DecidableEq

/-- Record built per card, mirroring the `JobPosting` dataclass
(JobScraper.py lines 24-32). -/
structure JobPosting where
  title : String
  company : String
  location : String
  summary : String
  url : String
deriving DecidableEq

/-- HTTP response, abstracted to its status code and the job cards that
`soup.select("div.jobsearch-SerpJobCard, div.cardOutline")` finds in its
body, in document order. -/
structure Response where
  status : Nat
  cards : List Card

/-- Whitespace characters removed by Python `str.strip()` (the ASCII ones;
the source site's markup contains no exotic Unicode spaces). -/
def isPySpace (c : Char) : Bool :=
  c == ' ' || c == '\t' || c == '\n' || c == '\r' || c == '\x0b' || c == '\x0c'

/-- Model of Python `str.strip()`: leading and trailing whitespace removed. -/
def pyStrip (s : String) : String :=
  String.mk (((s.toList.dropWhile isPySpace).reverse.dropWhile isPySpace).reverse)

/-- Model of Python `s.startswith(pre)`: `pre` is a prefix of `s`. -/
def pyStartsWith (s pre : String) : Bool :=
  pre.toList.isPrefixOf s.toList

/-- Python `x or y` for `x` an optional string (`Tag.get` result): `y` is
used when `x` is `None` or the empty string, both falsy. -/
def pyOrS (x : Option String) (y : String) : String :=
  match x with
  | some s => if s = "" then y else s
  | none => y

/-- Title anchor of a card, `card.select_one("h2.title a") or
card.select_one("h2.jobTitle a")` (JobScraper.py line 79). -/
def titleTag (card : Card) : Option Elem :=
  Option.or card.titleA card.titleB

/-- Title string, `title_tag.get("title") or title_tag.text.strip()`
(JobScraper.py line 82). -/
def extractTitle (t : Elem) : String :=
  pyOrS (t.getAttr "title") (pyStrip t.text)

/-- Link of the posting (JobScraper.py lines 83-85): the `href` attribute
(default `""`), with the site origin prepended when it starts with `/`. -/
def extractLink (t : Elem) : String :=
  let link := (t.getAttr "href").getD ""
  if link != "" && pyStartsWith link "/" then "https://www.indeed.com" ++ link
  else link

/-- Company string (JobScraper.py lines 88-89): trimmed text of
`span.company`, else of `span.companyName`, else `""`. -/
def extractCompany (card : Card) : String :=
  match Option.or card.companyA card.companyB with
  | some e => pyStrip e.text
  | none => ""

/-- Location string (JobScraper.py lines 92-97): from `div.recJobLoc` or
`div.companyLocation`, preferring a non-empty `data-rc-loc` attribute over
trimmed text; `""` when neither selector matches. -/
def extractLocation (card : Card) : String :=
  match Option.or card.locA card.locB with
  | some e =>
    match e.getAttr "data-rc-loc" with
    | some v => if v = "" then pyStrip e.text else v
    | none => pyStrip e.text
  | none => ""

/-- Summary string (JobScraper.py lines 100-101): trimmed text of
`div.summary`, else of `div.job-snippet`, else `""`. -/
def extractSummary (card : Card) : String :=
  match Option.or card.summaryA card.summaryB with
  | some e => pyStrip e.text
  | none => ""

/-- Loop body for one card (JobScraper.py lines 77-111): `none` models the
`continue` taken when no title anchor is found, otherwise the appended
`JobPosting`. -/
def extractCard (card : Card) : Option JobPosting :=
  match titleTag card with
  | none => none
  | some t =>
    some
      { title := extractTitle t
        company := extractCompany card
        location := extractLocation card
        summary := extractSummary card
        url := extractLink t }

/-- Postings collected from one page's cards, in document order. -/
def extractPage (cards : List Card) : List JobPosting :=
  cards.filterMap extractCard

/-- Condition under which `response.raise_for_status()` raises
`requests.exceptions.HTTPError`: a 4xx or 5xx status code. -/
def isHttpError (status : Nat) : Bool :=
  400 ≤ status && status < 600

/-- URL requested for page index `page` (JobScraper.py line 71):
`_build_search_url(query, location, start=page * 10)`. -/
def pageUrl (query location : List Nat) (page : Nat) : List Char :=
  _build_search_url query location ((page * 10 : Nat) : Int)

/-- Page loop of `scrape_jobs` (JobScraper.py lines 70-111) over the
remaining number of pages, threading the accumulated `results` list.
Besides the Python return value (`Except.error status` when
`raise_for_status` raises), the model records the trace of requested URLs
in order, so that theorems can speak about which HTTP requests happen. -/
def scrapeGo (http : List Char → Response) (query location : List Nat) :
    Nat → Nat → List JobPosting → Except Nat (List JobPosting) × List (List Char)
  | _, 0, results => (Except.ok results, [])
  | page, n + 1, results =>
    let url := pageUrl query location page
    let response := http url
    if isHttpError response.status then (Except.error response.status, [url])
    else
      let rest := scrapeGo http query location (page + 1) n
        (results ++ extractPage response.cards)
      (rest.1, url :: rest.2)

/-- Model of `scrape_jobs` (JobScraper.py lines 51-113). `http` stands for
`requests.get` with the fixed headers and timeout; `pages` is a Python int,
and `range(pages)` is empty whenever `pages ≤ 0` (`Int.toNat`). -/
def scrape_jobs (http : List Char → Response) (query location : List Nat)
    (pages : Int) : Except Nat (List JobPosting) × List (List Char) :=
  scrapeGo http query location 0 pages.toNat []

/-- Python `s * n` for strings: `n` copies of `s` concatenated. -/
def strRepeat (s : String) (n : Nat) : String :=
  String.join (List.replicate n s)

/-- Report printed by `main` (JobScraper.py lines 131-136), as the list of
lines written to stdout: header line, the summary when truthy (non-empty),
the url, then `"-" * 60`. -/
def reportLines : List JobPosting → List String
  | [] => []
  | job :: rest =>
    (job.title ++ " at " ++ job.company ++ " (" ++ job.location ++ ")") ::
      ((if job.summary != "" then [job.summary] else []) ++
        job.url :: strRepeat "-" 60 :: reportLines rest)

lemma extractCard_some (c : Card) (t : Elem) (ht : titleTag c = some t) :
    extractCard c = some
      { title := extractTitle t
        company := extractCompany c
        location := extractLocation c
        summary := extractSummary c
        url := extractLink t } := by
  unfold extractCard
  rw [ht]

lemma scrapeGo_trace (http : List Char → Response) (q l : List Nat) :
    ∀ (n start : Nat) (acc : List JobPosting),
      (∀ j < n, isHttpError (http (pageUrl q l (start + j))).status = false) →
      (scrapeGo http q l start n acc).2
        = (List.range n).map (fun j => pageUrl q l (start + j)) := by
  intro n
  induction n with
  | zero => intro start acc _; rfl
  | succ n ih =>
    intro start acc hok
    have h0 : isHttpError (http (pageUrl q l start)).status = false := by
      have h := hok 0 (Nat.succ_pos n)
      rwa [Nat.add_zero] at h
    have hok' : ∀ j < n,
        isHttpError (http (pageUrl q l (start + 1 + j))).status = false := by
      intro j hj
      have h := hok (j + 1) (by omega)
      have harg : start + (j + 1) = start + 1 + j := by omega
      rwa [harg] at h
    simp only [scrapeGo, h0, Bool.false_eq_true, if_false]
    rw [ih (start + 1) (acc ++ extractPage (http (pageUrl q l start)).cards) hok']
    rw [List.range_succ_eq_map, List.map_cons, List.map_map]
    have hfun : (fun j => pageUrl q l (start + 1 + j))
        = ((fun j => pageUrl q l (start + j)) ∘ Nat.succ) := by
      funext j
      show pageUrl q l (start + 1 + j) = pageUrl q l (start + (j + 1))
      congr 1
      omega
    rw [Nat.add_zero, hfun]
    rfl

lemma scrapeGo_error (http : List Char → Response) (q l : List Nat) :
    ∀ (m n start : Nat) (acc : List JobPosting), m < n →
      (∀ j < m, isHttpError (http (pageUrl q l (start + j))).status = false) →
      isHttpError (http (pageUrl q l (start + m))).status = true →
      (scrapeGo http q l start n acc).1
        = Except.error (http (pageUrl q l (start + m))).status := by
  intro m
  induction m with
  | zero =>
    intro n start acc hmn _ herr
    obtain ⟨n', rfl⟩ : ∃ n', n = n' + 1 := ⟨n - 1, by omega⟩
    rw [Nat.add_zero] at herr
    simp only [scrapeGo, herr, if_true]
    rfl
  | succ m ih =>
    intro n start acc hmn hok herr
    obtain ⟨n', rfl⟩ : ∃ n', n = n' + 1 := ⟨n - 1, by omega⟩
    have h0 : isHttpError (http (pageUrl q l start)).status = false := by
      have h := hok 0 (Nat.succ_pos m)
      rwa [Nat.add_zero] at h
    have hok' : ∀ j < m,
        isHttpError (http (pageUrl q l (start + 1 + j))).status = false := by
      intro j hj
      have h := hok (j + 1) (by omega)
      have harg : start + (j + 1) = start + 1 + j := by omega
      rwa [harg] at h
    have harg : start + (m + 1) = start + 1 + m := by omega
    rw [harg] at herr ⊢
    simp only [scrapeGo, h0, Bool.false_eq_true, if_false]
    exact ih n' (start + 1) (acc ++ extractPage (http (pageUrl q l start)).cards)
      (by omega) hok' herr

/-- Fixture: server that always answers a given status with an empty page. -/
def constResponse (status : Nat) : List Char → Response :=
  fun _ => { status := status, cards := [] }

/-- C3: for every integer `pages ≥ 1` (and any responses that do not abort
the run), `scrape_jobs` requests exactly the page indices `k = 0 ..
pages-1`, in increasing order, and the URL of the `k`-th request is built
with `start = 10*k`. -/
theorem scrape_jobs_pagination (http : List Char → Response)
    (query location : List Nat) (pages : Int) (hpages : 1 ≤ pages)
    (hok : ∀ k < pages.toNat,
      isHttpError (http (pageUrl query location k)).status = false) :
    (scrape_jobs http query location pages).2
      = (List.range pages.toNat).map
          (fun k => _build_search_url query location ((10 * k : Nat) : Int)) := by
  unfold scrape_jobs
  rw [scrapeGo_trace http query location pages.toNat 0 []
    (by intro j hj; rw [Nat.zero_add]; exact hok j hj)]
  have hfun : (fun j => pageUrl query location (0 + j))
      = (fun k : Nat => _build_search_url query location ((10 * k : Nat) : Int)) := by
    funext j
    show _build_search_url query location (((0 + j) * 10 : Nat) : Int) = _
    congr 1
    omega
  rw [hfun]

/-- Witness for C3: two pages against a 200-status server. -/
theorem scrape_jobs_pagination_witness :
    (scrape_jobs (constResponse 200) [] [] 2).2
      = (List.range (2 : Int).toNat).map
          (fun k => _build_search_url [] [] ((10 * k : Nat) : Int)) :=
  scrape_jobs_pagination (constResponse 200) [] [] 2 (by decide)
    (fun _ _ => rfl)

/-- C2 (amended): when some page's response has a client- or server-error
status (400-599) and the pages before it succeeded, `scrape_jobs` raises
`requests.exceptions.HTTPError` carrying that status and the whole run
aborts with no partial results (`Except.error` carries no postings);
a non-2xx status outside 400-599, such as 304, does not abort. -/
theorem scrape_jobs_aborts_on_http_error (http : List Char → Response)
    (query location : List Nat) (pages : Int) (k : Nat) (hk : k < pages.toNat)
    (hbefore : ∀ j < k,
      isHttpError (http (pageUrl query location j)).status = false)
    (herr : 400 ≤ (http (pageUrl query location k)).status ∧
      (http (pageUrl query location k)).status < 600) :
    (scrape_jobs http query location pages).1
      = Except.error (http (pageUrl query location k)).status := by
  unfold scrape_jobs
  have hb : ∀ j < k,
      isHttpError (http (pageUrl query location (0 + j))).status = false := by
    intro j hj
    rw [Nat.zero_add]
    exact hbefore j hj
  have he : isHttpError (http (pageUrl query location (0 + k))).status = true := by
    rw [Nat.zero_add]
    unfold isHttpError
    simp only [Bool.and_eq_true, decide_eq_true_eq]
    exact herr
  have h := scrapeGo_error http query location k pages.toNat 0 [] hk hb he
  rwa [Nat.zero_add] at h

/-- Witness for C2's amended theorem: a 500 response on the first page. -/
theorem scrape_jobs_aborts_witness :
    (scrape_jobs (constResponse 500) [] [] 1).1
      = Except.error ((constResponse 500) (pageUrl [] [] 0)).status :=
  scrape_jobs_aborts_on_http_error (constResponse 500) [] [] 1 0 (by decide)
    (fun j hj => absurd hj (Nat.not_lt_zero j)) ⟨by decide, by decide⟩

/-- C2 counterexample: a 304 response is not 2xx, yet `raise_for_status`
does not raise for it, so the run completes normally instead of aborting
with a `RequestFailure`. -/
theorem scrape_jobs_304_not_aborted :
    ((constResponse 304) (pageUrl [] [] 0)).status = 304 ∧
    (scrape_jobs (constResponse 304) [] [] 1).1 = Except.ok [] := by
  exact ⟨rfl, rfl⟩

/-- C10: for every `pages ≤ 0`, `range(pages)` is empty, so `scrape_jobs`
returns the empty list and requests no URL at all. -/
theorem scrape_jobs_nonpositive_pages (http : List Char → Response)
    (query location : List Nat) (pages : Int) (h : pages ≤ 0) :
    scrape_jobs http query location pages = (Except.ok [], []) := by
  unfold scrape_jobs
  rw [Int.toNat_of_nonpos h]
  rfl

/-- Witness for C10 at `pages = -1`. -/
theorem scrape_jobs_nonpositive_pages_witness :
    scrape_jobs (constResponse 200) [] [] (-1) = (Except.ok [], []) :=
  scrape_jobs_nonpositive_pages (constResponse 200) [] [] (-1) (by decide)

/-- Fixture: card whose only discoverable element is a bare title anchor
with no attributes and blank text. -/
def blankAnchorCard : Card :=
  { titleA := some { attrs := [], text := "" }, titleB := none
    companyA := none, companyB := none, locA := none, locB := none
    summaryA := none, summaryB := none }

/-- Fixture: server returning one page containing only `blankAnchorCard`. -/
def blankAnchorHttp : List Char → Response :=
  fun _ => { status := 200, cards := [blankAnchorCard] }

/-- C1 counterexample: a card whose title anchor exists but has neither a
`title` attribute nor non-whitespace text yields a record whose `title` is
the empty string, and that record appears in the returned list. -/
theorem scrape_jobs_empty_title_cex :
    (scrape_jobs blankAnchorHttp [] [] 1).1
      = Except.ok
          [{ title := "", company := "", location := "", summary := "",
             url := "" }] := by
  rfl

/-- C1 (amended): every record appended by the card loop comes from a card
with a discoverable title anchor (cards without one are skipped), and its
title is non-empty except when the found anchor has neither a non-empty
`title` attribute nor non-whitespace text. -/
theorem extract_title_anchor (c : Card) (p : JobPosting)
    (h : extractCard c = some p) :
    ∃ t, titleTag c = some t ∧
      (p.title = "" →
        (t.getAttr "title" = none ∨ t.getAttr "title" = some "") ∧
          pyStrip t.text = "") := by
  cases ht : titleTag c with
  | none =>
    unfold extractCard at h
    rw [ht] at h
    cases h
  | some t =>
    refine ⟨t, rfl, ?_⟩
    rw [extractCard_some c t ht] at h
    obtain rfl := Option.some.inj h
    intro hempty
    have htitle : extractTitle t = "" := hempty
    unfold extractTitle pyOrS at htitle
    cases hat : t.getAttr "title" with
    | none =>
      rw [hat] at htitle
      exact ⟨Or.inl rfl, htitle⟩
    | some v =>
      rw [hat] at htitle
      by_cases hv : v = ""
      · subst hv
        simp only [if_pos rfl] at htitle
        exact ⟨Or.inr rfl, htitle⟩
      · simp only [if_neg hv] at htitle
        exact absurd htitle hv

/-- Fixture: card whose title anchor carries `title="Dev"` and text `"x"`. -/
def devCard : Card :=
  { titleA := some { attrs := [("title", "Dev")], text := "x" }, titleB := none
    companyA := none, companyB := none, locA := none, locB := none
    summaryA := none, summaryB := none }

/-- Witness for C1's amended theorem at `devCard`. -/
theorem extract_title_anchor_witness :
    ∃ t, titleTag devCard = some t ∧
      ((JobPosting.mk "Dev" "" "" "" "").title = "" →
        (t.getAttr "title" = none ∨ t.getAttr "title" = some "") ∧
          pyStrip t.text = "") :=
  extract_title_anchor devCard (JobPosting.mk "Dev" "" "" "" "") rfl

/-- C5: the record's `url` is the fixed origin `"https://www.indeed.com"`
prepended to the title anchor's `href` when that attribute starts with `/`,
the unchanged `href` otherwise, and the empty string when the anchor has no
`href` attribute. -/
theorem extract_url_absolutization (c : Card) (t : Elem) (p : JobPosting)
    (ht : titleTag c = some t) (h : extractCard c = some p) :
    p.url = match t.getAttr "href" with
      | none => ""
      | some href =>
        if pyStartsWith href "/" then "https://www.indeed.com" ++ href
        else href := by
  rw [extractCard_some c t ht] at h
  obtain rfl := Option.some.inj h
  show extractLink t = _
  unfold extractLink
  cases t.getAttr "href" with
  | none => rfl
  | some href =>
    show (if (href != "" && pyStartsWith href "/") = true
        then "https://www.indeed.com" ++ href else href)
      = if pyStartsWith href "/" = true then "https://www.indeed.com" ++ href
        else href
    by_cases he : href = ""
    · subst he
      rfl
    · have hne : (href != "") = true := by simp [he]
      rw [hne, Bool.true_and]

/-- Fixture: card whose title anchor carries a site-relative `href`. -/
def hrefCard : Card :=
  { titleA := some { attrs := [("href", "/viewjob?jk=abc")], text := "T" }
    titleB := none, companyA := none, companyB := none, locA := none
    locB := none, summaryA := none, summaryB := none }

/-- Witness for C5 at `hrefCard`. -/
theorem extract_url_absolutization_witness :
    (JobPosting.mk "T" "" "" "" "https://www.indeed.com/viewjob?jk=abc").url
      = match (Elem.mk [("href", "/viewjob?jk=abc")] "T").getAttr "href" with
        | none => ""
        | some href =>
          if pyStartsWith href "/" then "https://www.indeed.com" ++ href
          else href :=
  extract_url_absolutization hrefCard (Elem.mk [("href", "/viewjob?jk=abc")] "T")
    (JobPosting.mk "T" "" "" "" "https://www.indeed.com/viewjob?jk=abc")
    (by decide) (by decide)

/-- Fixture: card whose title anchor carries an *empty* `title` attribute
next to non-blank anchor text. -/
def emptyAttrCard : Card :=
  { titleA := some { attrs := [("title", "")], text := "Engineer" }
    titleB := none, companyA := none, companyB := none, locA := none
    locB := none, summaryA := none, summaryB := none }

/-- C6 counterexample: the title anchor carries a `title` attribute (value
`""`), yet the record's title is the anchor's trimmed text `"Engineer"`,
not the attribute's value, because Python's `or` treats the empty string as
falsy. -/
theorem extract_title_attr_cex :
    (Elem.mk [("title", "")] "Engineer").getAttr "title" = some "" ∧
    (extractCard emptyAttrCard).map JobPosting.title = some "Engineer" ∧
    (extractCard emptyAttrCard).map JobPosting.title ≠ some "" := by
  refine ⟨rfl, by decide, by decide⟩

/-- C6 (amended): the `title` attribute is preferred whenever it is present
*and non-empty*; when it is absent or empty, the title is the anchor's
trimmed text. -/
theorem extract_title_attr_preference (c : Card) (t : Elem) (p : JobPosting)
    (ht : titleTag c = some t) (h : extractCard c = some p) :
    p.title = match t.getAttr "title" with
      | some v => if v = "" then pyStrip t.text else v
      | none => pyStrip t.text := by
  rw [extractCard_some c t ht] at h
  obtain rfl := Option.some.inj h
  rfl

/-- Witness for C6's amended theorem at `devCard`. -/
theorem extract_title_attr_preference_witness :
    (JobPosting.mk "Dev" "" "" "" "").title
      = match (Elem.mk [("title", "Dev")] "x").getAttr "title" with
        | some v => if v = "" then pyStrip (Elem.mk [("title", "Dev")] "x").text
          else v
        | none => pyStrip (Elem.mk [("title", "Dev")] "x").text :=
  extract_title_attr_preference devCard (Elem.mk [("title", "Dev")] "x")
    (JobPosting.mk "Dev" "" "" "" "") (by decide) (by decide)

/-- C7: company-selector fallback is strictly ordered: when the primary
selector `span.company` matched, the company is that element's trimmed
text and the alternate is never consulted; only when the primary yielded no
match is the alternate `span.companyName` used, and the company is then the
alternate element's trimmed text. -/
theorem extract_company_fallback (c : Card) (p : JobPosting)
    (h : extractCard c = some p) :
    (∀ e, c.companyA = some e → p.company = pyStrip e.text) ∧
    (c.companyA = none → ∀ e, c.companyB = some e → p.company = pyStrip e.text) := by
  cases ht : titleTag c with
  | none =>
    unfold extractCard at h
    rw [ht] at h
    cases h
  | some t =>
    rw [extractCard_some c t ht] at h
    obtain rfl := Option.some.inj h
    constructor
    · intro e he
      show extractCompany c = _
      unfold extractCompany
      rw [he]
      rfl
    · intro hA e he
      show extractCompany c = _
      unfold extractCompany
      rw [hA, he]
      rfl

/-- Fixture: card with a title anchor that matches only the alternate
company selector. -/
def altCompanyCard : Card :=
  { titleA := some { attrs := [], text := "T" }, titleB := none
    companyA := none, companyB := some { attrs := [], text := " Acme " }
    locA := none, locB := none, summaryA := none, summaryB := none }

/-- Witness for C7 at `altCompanyCard`, whose company is the alternate
element's trimmed text `"Acme"`. -/
theorem extract_company_fallback_witness :
    (∀ e, altCompanyCard.companyA = some e →
      (JobPosting.mk "T" "Acme" "" "" "").company = pyStrip e.text) ∧
    (altCompanyCard.companyA = none →
      ∀ e, altCompanyCard.companyB = some e →
        (JobPosting.mk "T" "Acme" "" "" "").company = pyStrip e.text) :=
  extract_company_fallback altCompanyCard (JobPosting.mk "T" "Acme" "" "" "")
    (by decide)

/-- C8: a card in which neither title-link selector matches produces no
record (`continue`), and removing such a card from a page leaves the
extracted postings of every other card unchanged: skipping is silent. -/
theorem card_without_title_skipped (c : Card) (hA : c.titleA = none)
    (hB : c.titleB = none) (xs ys : List Card) :
    extractCard c = none ∧ extractPage (xs ++ c :: ys) = extractPage (xs ++ ys) := by
  have hnone : extractCard c = none := by
    unfold extractCard titleTag
    rw [hA, hB]
    rfl
  refine ⟨hnone, ?_⟩
  unfold extractPage
  rw [List.filterMap_append, List.filterMap_append, List.filterMap_cons_none hnone]

/-- Fixture: card with no matching selector at all. -/
def bareCard : Card :=
  { titleA := none, titleB := none, companyA := none, companyB := none
    locA := none, locB := none, summaryA := none, summaryB := none }

/-- Witness for C8: dropping `bareCard` from the page `[devCard, bareCard]`
does not change its extraction. -/
theorem card_without_title_skipped_witness :
    extractCard bareCard = none ∧
    extractPage ([devCard] ++ bareCard :: []) = extractPage ([devCard] ++ []) :=
  card_without_title_skipped bareCard (by decide) (by decide) [devCard] []

/-- C9: for every list of postings, the printed report is, per posting in
order: the line `"<title> at <company> (<location>)"`, then the summary
line only when the summary is non-empty, then the url line, then a
separator line consisting of exactly sixty dash characters. -/
theorem reportLines_structure (jobs : List JobPosting) :
    reportLines jobs
      = jobs.flatMap (fun j =>
          (j.title ++ " at " ++ j.company ++ " (" ++ j.location ++ ")") ::
            ((if j.summary = "" then [] else [j.summary]) ++
              [j.url, strRepeat "-" 60])) ∧
    (strRepeat "-" 60).length = 60 ∧
    (strRepeat "-" 60).toList.all (fun ch => ch == '-') = true := by
  refine ⟨?_, by decide, by decide⟩
  induction jobs with
  | nil => rfl
  | cons j rest ih =>
    rw [reportLines, ih, List.flatMap_cons]
    by_cases hs : j.summary = ""
    · have hbne : (j.summary != "") = false := by simp [hs]
      rw [hbne, hs]
      simp
    · have hbne : (j.summary != "") = true := by simp [hs]
      rw [hbne, if_neg hs]
      simp
